import Mathlib

/-!
Shallow embedding of `app.py` (Song Popularity Prediction Dashboard).

The app is a Streamlit script.  We embed it as pure functions that, given
the ambient inputs (filesystem facts, the result of deserializing the model,
the selected page, the widget states), return the list of UI / side effects
the script performs, in order.  The model object is opaque to the app: we
represent it by its `predict` method, a function from a 2D value matrix to
either a prediction array or a raised exception (`Except`).  Python
exceptions are `Except.error` carrying the message; a `try/except` block
becomes a `match` on the `Except`.  Feature values (Python floats) are an
arbitrary type `V`; the float constructor `float(...)` is a parameter
`pf : String → Except String V` since the claims do not depend on float
arithmetic, only on which strings are fed to it and where the results go.
-/

namespace SongAnalysis

/-- Python `s.split(sep)` for a one-character separator, on the character
list: splits on every occurrence of `sep`, keeping empty pieces, and the
split of the empty list is `[[]]` (Python: `"".split(",") == [""]`). -/
def splitChar (sep : Char) : List Char → List (List Char)
  | [] => [[]]
  | c :: cs =>
    match splitChar sep cs with
    | [] => if c = sep then [[], [c]] else [[c]]
    | t :: ts => if c = sep then [] :: t :: ts else (c :: t) :: ts

/-- Python `s.split(sep)` on strings (single-character separator). -/
def pySplit (sep : Char) (s : String) : List String :=
  (splitChar sep s.data).map String.mk

/-- Python `s.strip()`: remove leading and trailing whitespace. -/
def pyStrip (s : String) : String :=
  String.mk (((s.data.dropWhile Char.isWhitespace).reverse.dropWhile
    Char.isWhitespace).reverse)

/-- The tokens retained by the manual-input list comprehension
`[... for x in user_input.split(",") if x.strip() != ""]`:
split on commas, strip each token, discard the ones that are empty after
stripping (app.py line 116). -/
def stripTokens (s : String) : List String :=
  ((pySplit ',' s).map pyStrip).filter (fun t => t ≠ "")

/-- Left-to-right conversion of the retained tokens with the float
constructor `pf`; the first conversion error is the raised exception, as in
the Python list comprehension. -/
def mapFloat (V : Type) (pf : String → Except String V) :
    List String → Except String (List V)
  | [] => Except.ok []
  | t :: ts =>
    match pf t with
    | Except.error e => Except.error e
    | Except.ok v =>
      match mapFloat V pf ts with
      | Except.error e => Except.error e
      | Except.ok vs => Except.ok (v :: vs)

/-- `[float(x.strip()) for x in user_input.split(",") if x.strip() != ""]`
(app.py line 116). -/
def parseFeatures (V : Type) (pf : String → Except String V) (s : String) :
    Except String (List V) :=
  mapFloat V pf (stripTokens s)

/-- `np.array(arr).reshape(1, -1)` (app.py line 117): a 2D array with
exactly one row holding `arr`; its shape is `(1, arr.length)`. -/
def reshapeRow (V : Type) (arr : List V) : List (List V) :=
  [arr]

/-- A pandas DataFrame as produced by `pd.read_csv`: a header of column
names and the cell matrix (`df.values`). -/
structure DataFrame (V : Type) where
  cols : List String
  rows : List (List V)
deriving DecidableEq

/-- `df.copy()` (app.py line 141). -/
def DataFrame.copy {V : Type} (df : DataFrame V) : DataFrame V := df

/-- `df.head()`: the first 5 rows. -/
def DataFrame.head {V : Type} (df : DataFrame V) : List (List V) :=
  df.rows.take 5

/-- pandas column assignment `df[name] = vals` for an array-like `vals`
(app.py line 142): raises if the value count differs from the row count;
if a column `name` already exists its cells are overwritten in place,
otherwise a new column is appended on the right. -/
def DataFrame.setCol {V : Type} (df : DataFrame V) (name : String)
    (vals : List V) : Except String (DataFrame V) :=
  if vals.length ≠ df.rows.length then
    Except.error "Length of values does not match length of index"
  else if name ∈ df.cols then
    Except.ok ⟨df.cols,
      (df.rows.zip vals).map (fun rv => rv.1.set (df.cols.indexOf name) rv.2)⟩
  else
    Except.ok ⟨df.cols ++ [name],
      (df.rows.zip vals).map (fun rv => rv.1 ++ [rv.2])⟩

/-- The deserialized model object, opaque except for its `predict` method,
which either returns a 1D prediction array (one value per input row) or
raises. -/
structure Model (V : Type) where
  predict : List (List V) → Except String (List V)

/-- One UI / side effect performed by the script, in particular every
filesystem access: `os.path.exists`/`Image.open`/`joblib.load` are reads
(`fsRead`); the script has no write, but the constructor `fsWrite` is part
of the effect vocabulary so that its absence is a statement about the
program, not about the type. -/
inductive Event (V : Type)
  | error (msg : String)
  | warning (msg : String)
  | success (msg : String)
  | info (msg : String)
  | write (msg : String)
  | writePred (label : String) (v : V)
  | markdown (txt : String)
  | header (txt : String)
  | image (width height : Nat)
  | dataframe (cols : List String) (rows : List (List V))
  | download (label : String) (table : DataFrame V) (index : Bool)
      (encoding : String) (filename : String) (mime : String)
  | predictCall (rows : List (List V))
  | fsRead (path : String)
  | fsWrite (path : String)
deriving DecidableEq

/-- `MODEL_PATH = "model[1].pkl"` (app.py line 74). -/
def MODEL_PATH : String := "model[1].pkl"

/-- `banner_path = "images/banner.jpg"` (app.py line 24). -/
def banner_path : String := "images/banner.jpg"

/-- The banner block (app.py lines 24-30): if the file exists, open it,
resize to `(1000, 400)` and display; otherwise show an informational
message.  `bannerExists` is the value of `os.path.exists(banner_path)`. -/
def bannerStep (V : Type) (bannerExists : Bool) : List (Event V) :=
  Event.fsRead banner_path ::
  (if bannerExists then
    [Event.fsRead banner_path, Event.image 1000 400]
  else
    [Event.info "Banner image not found at images/banner.jpg. (Optional)"])

/-- The model-loading block (app.py lines 76-84): if the file at
`MODEL_PATH` exists, try `joblib.load`; on success the loaded object is the
model, on an exception the model stays `None`.  If the file is absent the
model stays `None` and a warning is shown.  `fileExists` is
`os.path.exists(MODEL_PATH)`; `loadResult` is what `joblib.load` would do. -/
def loadModelStep (V : Type) (fileExists : Bool)
    (loadResult : Except String (Model V)) :
    Option (Model V) × List (Event V) :=
  if fileExists then
    match loadResult with
    | Except.ok m =>
      (some m, [Event.fsRead MODEL_PATH, Event.fsRead MODEL_PATH,
        Event.success ("Model loaded from `" ++ MODEL_PATH ++ "`")])
    | Except.error e =>
      (none, [Event.fsRead MODEL_PATH, Event.fsRead MODEL_PATH,
        Event.error ("Failed to load model: " ++ e)])
  else
    (none, [Event.fsRead MODEL_PATH,
      Event.warning ("Model file not found at `" ++ MODEL_PATH ++
        "`.\nIf your model is large, remove it from repo and load from Drive or use Git LFS.")])

/-- The manual Prediction page handler once the `Predict (manual)` button
is pressed (app.py lines 110-121): guard on `model is None`; otherwise a
`try` block parses the input, reshapes it, calls `model.predict` and
displays `preds[0]`; any exception (parse failure, predict failure, or the
IndexError of `preds[0]` on an empty array) becomes an error message. -/
def manualPredictHandler (V : Type) (pf : String → Except String V)
    (model : Option (Model V)) (user_input : String) : List (Event V) :=
  match model with
  | none =>
    [Event.error "No model loaded. Ensure `model[1].pkl` is present or load model at runtime."]
  | some m =>
    match parseFeatures V pf user_input with
    | Except.error e =>
      [Event.error ("Could not predict: " ++ e ++
        "\nCheck that you supplied the correct number and type of features.")]
    | Except.ok arr =>
      let X := reshapeRow V arr
      Event.predictCall X ::
      match m.predict X with
      | Except.error e =>
        [Event.error ("Could not predict: " ++ e ++
          "\nCheck that you supplied the correct number and type of features.")]
      | Except.ok preds =>
        match preds with
        | [] =>
          [Event.error ("Could not predict: index 0 is out of bounds for axis 0 with size 0" ++
            "\nCheck that you supplied the correct number and type of features.")]
        | p :: _ => [Event.writePred "✅ Prediction:" p]

/-- The widget state of the batch page: `uploaded = none` when no file has
been chosen; otherwise the outcome of `pd.read_csv` on the uploaded bytes.
`runClicked` is the `Run predictions on uploaded CSV` button. -/
structure BatchInput (V : Type) where
  uploaded : Option (Except String (DataFrame V))
  runClicked : Bool

/-- The `Upload & Batch Predict` page body after the file uploader
(app.py lines 130-151): the outer `try` turns a `read_csv` exception into
a `Failed to read CSV` error; otherwise the input is previewed
(`df.head()`), the `model is None` guard runs, and when the button is
pressed the inner `try` calls `model.predict(df.values)`, copies the
dataframe, assigns the `prediction` column, previews the result and offers
`out.to_csv(index=False).encode("utf-8")` for download; an exception there
becomes a `Prediction failed` error. -/
def batchHandler (V : Type) (model : Option (Model V)) (inp : BatchInput V) :
    List (Event V) :=
  match inp.uploaded with
  | none => []
  | some (Except.error e) => [Event.error ("Failed to read CSV: " ++ e)]
  | some (Except.ok df) =>
    [Event.write "Preview of uploaded data (first 5 rows):",
     Event.dataframe df.cols df.head] ++
    match model with
    | none => [Event.error "No model loaded. Cannot run predictions."]
    | some m =>
      if inp.runClicked then
        Event.predictCall df.rows ::
        match m.predict df.rows with
        | Except.error e =>
          [Event.error ("Prediction failed: " ++ e ++
            "\nMake sure the CSV columns match the features and ordering used for training.")]
        | Except.ok preds =>
          match df.copy.setCol "prediction" preds with
          | Except.error e =>
            [Event.error ("Prediction failed: " ++ e ++
              "\nMake sure the CSV columns match the features and ordering used for training.")]
          | Except.ok out =>
            [Event.success "Predictions complete.",
             Event.dataframe out.cols out.head,
             Event.download "Download results CSV" out false "utf-8"
               "predictions.csv" "text/csv"]
      else []

/-- The sidebar radio selection (app.py line 90). -/
inductive Page
  | about
  | prediction
  | uploadBatch
  | instructions
deriving DecidableEq

/-- Everything the environment supplies to one run of the script:
filesystem existence facts, the behaviour of `joblib.load`, the float
constructor, and the widget states of each page. -/
structure AppInput (V : Type) where
  bannerExists : Bool
  modelFileExists : Bool
  loadResult : Except String (Model V)
  pf : String → Except String V
  page : Page
  manualInput : String
  manualClicked : Bool
  batch : BatchInput V

/-- The static header block (app.py lines 12-19). -/
def headerEvents (V : Type) : List (Event V) :=
  [Event.markdown "<h1>🎵 Song Popularity Prediction Dashboard</h1>",
   Event.markdown "<p>An end-to-end Data Science project on music analytics</p>",
   Event.write ""]

/-- The static author / problem / workflow narrative (app.py lines 35-68). -/
def narrativeEvents (V : Type) : List (Event V) :=
  [Event.markdown "### 👤 Author",
   Event.markdown "- **Name:** Advait Joshi ...",
   Event.markdown "---",
   Event.markdown "### 🧩 Problem Statement",
   Event.markdown "As a data scientist at a music streaming company ...",
   Event.markdown "---",
   Event.markdown "### 🔍 Project Workflow",
   Event.markdown "We followed the complete data science lifecycle: ...",
   Event.markdown "---",
   Event.success "Use the sidebar to navigate through insights, model training, predictions, and final takeaways."]

/-- The page dispatch (app.py lines 95-184), given the loaded model. -/
def pageDispatch (V : Type) (model : Option (Model V)) (inp : AppInput V) :
    List (Event V) :=
  match inp.page with
  | Page.about =>
    [Event.header "Project Summary",
     Event.write "This dashboard shows the end-to-end pipeline and allows prediction using the trained model."]
  | Page.prediction =>
    [Event.header "Single Prediction (Manual Input)",
     Event.markdown "Paste a **comma-separated** list of feature values matching the order you used during training. ..."] ++
    (if inp.manualClicked then
      manualPredictHandler V inp.pf model inp.manualInput
    else [])
  | Page.uploadBatch =>
    [Event.header "Batch Prediction via CSV",
     Event.markdown "Upload a CSV where each row is a sample and columns match the training features (no target column required)."] ++
    batchHandler V model inp.batch
  | Page.instructions =>
    [Event.header "How to use & deploy",
     Event.markdown "**Local run** ... **Deploy to Streamlit Cloud** ..."]

/-- One full run of `app.py` top to bottom: header, banner block,
narrative, model loading, sidebar, page dispatch. -/
def runApp (V : Type) (inp : AppInput V) : List (Event V) :=
  headerEvents V ++
  bannerStep V inp.bannerExists ++
  narrativeEvents V ++
  (let ld := loadModelStep V inp.modelFileExists inp.loadResult
   ld.2 ++ pageDispatch V ld.1 inp)

/-! Auxiliary lemmas about the parsing pipeline. -/

lemma splitChar_ne_nil (sep : Char) (l : List Char) : splitChar sep l ≠ [] := by
  cases l with
  | nil => simp [splitChar]
  | cons c cs =>
    simp only [splitChar]
    split <;> split <;> simp

lemma mem_splitChar (sep : Char) :
    ∀ (l piece : List Char), piece ∈ splitChar sep l →
      ∀ c ∈ piece, c ∈ l ∧ c ≠ sep := by
  intro l
  induction l with
  | nil =>
    intro piece hp c hc
    simp [splitChar] at hp
    subst hp
    simp at hc
  | cons a cs ih =>
    intro piece hp c hc
    cases h : splitChar sep cs with
    | nil => exact absurd h (splitChar_ne_nil sep cs)
    | cons t ts =>
      simp only [splitChar, h] at hp
      by_cases ha : a = sep
      · rw [if_pos ha] at hp
        rcases List.mem_cons.mp hp with h1 | h1
        · subst h1; simp at hc
        · have := ih piece (h ▸ h1) c hc
          exact ⟨List.mem_cons_of_mem a this.1, this.2⟩
      · rw [if_neg ha] at hp
        rcases List.mem_cons.mp hp with h1 | h1
        · subst h1
          rcases List.mem_cons.mp hc with h2 | h2
          · subst h2; exact ⟨List.mem_cons_self _ _, ha⟩
          · have ht : t ∈ splitChar sep cs := h ▸ List.mem_cons_self _ _
            have := ih t ht c h2
            exact ⟨List.mem_cons_of_mem a this.1, this.2⟩
        · have hts : piece ∈ splitChar sep cs := h ▸ List.mem_cons_of_mem t h1
          have := ih piece hts c hc
          exact ⟨List.mem_cons_of_mem a this.1, this.2⟩

lemma pyStrip_of_all_whitespace (piece : List Char)
    (h : ∀ c ∈ piece, c.isWhitespace) : pyStrip (String.mk piece) = "" := by
  have h1 : piece.dropWhile Char.isWhitespace = [] :=
    List.dropWhile_eq_nil_iff.mpr h
  show String.mk _ = ""
  rw [show (String.mk piece).data = piece from rfl, h1]
  rfl

lemma stripTokens_eq_nil (s : String)
    (h : ∀ c ∈ s.data, c = ',' ∨ c.isWhitespace) : stripTokens s = [] := by
  apply List.filter_eq_nil_iff.mpr
  intro t ht
  simp only [pySplit, List.map_map, List.mem_map] at ht
  obtain ⟨piece, hpiece, hteq⟩ := ht
  have hws : ∀ c ∈ piece, c.isWhitespace := by
    intro c hc
    have hmem := mem_splitChar ',' s.data piece hpiece c hc
    rcases h c hmem.1 with h1 | h1
    · exact absurd h1 hmem.2
    · exact h1
  have : pyStrip (String.mk piece) = "" := pyStrip_of_all_whitespace piece hws
  simp only [Function.comp] at hteq
  rw [← hteq, this]
  simp

lemma mapFloat_length (V : Type) (pf : String → Except String V) :
    ∀ (l : List String) (r : List V),
      mapFloat V pf l = Except.ok r → r.length = l.length := by
  intro l
  induction l with
  | nil =>
    intro r h
    simp only [mapFloat] at h
    cases h
    rfl
  | cons t ts ih =>
    intro r h
    simp only [mapFloat] at h
    cases hpf : pf t with
    | error e => rw [hpf] at h; cases h
    | ok v =>
      rw [hpf] at h
      cases hr : mapFloat V pf ts with
      | error e => rw [hr] at h; cases h
      | ok vs =>
        rw [hr] at h
        cases h
        simp [ih vs hr]

/-! Claim theorems. -/

/-- C1: on the manual Prediction page, the feature matrix passed to the
model is obtained by splitting the entered string on commas, stripping each
token, discarding tokens empty after stripping, converting the rest with
the float constructor, and reshaping into a 2D array with exactly one row
of width the number of retained tokens; and that matrix is the only one
ever passed to `model.predict` by the handler. -/
theorem manual_input_matrix (V : Type) (pf : String → Except String V)
    (m : Model V) (s : String) (arr : List V)
    (h : parseFeatures V pf s = Except.ok arr) :
    Event.predictCall (reshapeRow V arr) ∈ manualPredictHandler V pf (some m) s ∧
    (∀ X, Event.predictCall X ∈ manualPredictHandler V pf (some m) s →
      X = reshapeRow V arr) ∧
    reshapeRow V arr = [arr] ∧
    arr.length = (stripTokens s).length := by
  refine ⟨?_, ?_, rfl, mapFloat_length V pf (stripTokens s) arr h⟩
  · show Event.predictCall (reshapeRow V arr) ∈
      manualPredictHandler V pf (some m) s
    simp only [manualPredictHandler, h]
    exact List.mem_cons_self _ _
  · intro X hX
    simp only [manualPredictHandler, h] at hX
    rcases List.mem_cons.mp hX with h1 | h1
    · injection h1
    · cases hpred : m.predict (reshapeRow V arr) with
      | error e => rw [hpred] at h1; simp at h1
      | ok preds =>
        rw [hpred] at h1
        cases preds with
        | nil => simp at h1
        | cons p ps => simp at h1

/-- C1 witness: a concrete run of the theorem at the input `" 1, 1 "`. -/
theorem manual_input_matrix_witness :
    Event.predictCall
        (reshapeRow Int [1, 1]) ∈
      manualPredictHandler Int
        (fun t => if t = "1" then Except.ok 1 else Except.error "ValueError")
        (some ⟨fun _ => Except.ok [0]⟩) " 1, 1 " :=
  (manual_input_matrix Int
    (fun t => if t = "1" then Except.ok 1 else Except.error "ValueError")
    ⟨fun _ => Except.ok [0]⟩ " 1, 1 " [1, 1] (by rfl)).1

/-- C9: an input made only of commas and whitespace parses to the empty
feature list, which is reshaped to the one-row zero-column matrix `[[]]`
(shape `(1, 0)`) and is still passed to `model.predict` — there is no
guard rejecting empty input before the call. -/
theorem empty_input_still_predicts (V : Type) (pf : String → Except String V)
    (m : Model V) (s : String)
    (h : ∀ c ∈ s.data, c = ',' ∨ c.isWhitespace) :
    parseFeatures V pf s = Except.ok [] ∧
    reshapeRow V [] = [[]] ∧
    Event.predictCall [([] : List V)] ∈ manualPredictHandler V pf (some m) s := by
  have hp : parseFeatures V pf s = Except.ok ([] : List V) := by
    unfold parseFeatures
    rw [stripTokens_eq_nil s h]
    rfl
  refine ⟨hp, rfl, ?_⟩
  simp only [manualPredictHandler, hp]
  exact List.mem_cons_self _ _

/-- C9 witness: the concrete input `" ,, , "`. -/
theorem empty_input_still_predicts_witness :
    parseFeatures Int (fun _ => Except.error "ValueError") " ,, , " =
        Except.ok [] ∧
    Event.predictCall [([] : List Int)] ∈
      manualPredictHandler Int (fun _ => Except.error "ValueError")
        (some ⟨fun _ => Except.ok [0]⟩) " ,, , " := by
  have h := empty_input_still_predicts Int (fun _ => Except.error "ValueError")
    ⟨fun _ => Except.ok [0]⟩ " ,, , " (by decide)
  exact ⟨h.1, h.2.2⟩

/-- C3: with a loaded model, the manual handler is total and every
exception is rendered as a single error event (it never escapes): the
trace is always exactly an error message, or the predict call followed by
an error message, or the predict call followed by the display of the first
prediction; and whenever parsing and prediction both succeed with a
nonempty array, the first element is what is displayed. -/
theorem manual_try_except (V : Type) (pf : String → Except String V)
    (m : Model V) (s : String) :
    ((∃ msg, manualPredictHandler V pf (some m) s = [Event.error msg]) ∨
     (∃ arr msg, manualPredictHandler V pf (some m) s =
        [Event.predictCall [arr], Event.error msg]) ∨
     (∃ arr p, manualPredictHandler V pf (some m) s =
        [Event.predictCall [arr], Event.writePred "✅ Prediction:" p])) ∧
    (∀ arr p ps, parseFeatures V pf s = Except.ok arr →
      m.predict [arr] = Except.ok (p :: ps) →
      manualPredictHandler V pf (some m) s =
        [Event.predictCall [arr], Event.writePred "✅ Prediction:" p]) := by
  constructor
  · cases hp : parseFeatures V pf s with
    | error e =>
      left
      refine ⟨"Could not predict: " ++ e ++
        "\nCheck that you supplied the correct number and type of features.", ?_⟩
      simp only [manualPredictHandler, hp]
    | ok arr =>
      cases hpred : m.predict (reshapeRow V arr) with
      | error e =>
        right; left
        refine ⟨arr, "Could not predict: " ++ e ++
          "\nCheck that you supplied the correct number and type of features.", ?_⟩
        simp only [manualPredictHandler, hp, hpred]
        rfl
      | ok preds =>
        cases preds with
        | nil =>
          right; left
          refine ⟨arr, "Could not predict: index 0 is out of bounds for axis 0 with size 0" ++
            "\nCheck that you supplied the correct number and type of features.", ?_⟩
          simp only [manualPredictHandler, hp, hpred]
          rfl
        | cons p ps =>
          right; right
          refine ⟨arr, p, ?_⟩
          simp only [manualPredictHandler, hp, hpred]
          rfl
  · intro arr p ps hp hpred
    simp only [manualPredictHandler, hp]
    rw [show reshapeRow V arr = [arr] from rfl, hpred]

/-- C3 witness: a model returning `[7]` on the parsed input `"1"`
displays `7`. -/
theorem manual_try_except_witness :
    manualPredictHandler Int (fun _ => Except.ok 0)
        (some ⟨fun _ => Except.ok [7]⟩) "1" =
      [Event.predictCall [[0]], Event.writePred "✅ Prediction:" 7] :=
  (manual_try_except Int (fun _ => Except.ok 0)
    ⟨fun _ => Except.ok [7]⟩ "1").2 [0] 7 [] (by rfl) (by rfl)

/-- C5: at startup, when the model file exists, a successful
`joblib.load` installs the loaded object as the model with a success
message; a load exception leaves the model `None` with an error message;
and when the file is missing the model stays `None` with a warning. -/
theorem model_loading (V : Type) (r : Except String (Model V)) :
    (∀ m, r = Except.ok m →
      loadModelStep V true r =
        (some m, [Event.fsRead MODEL_PATH, Event.fsRead MODEL_PATH,
          Event.success ("Model loaded from `" ++ MODEL_PATH ++ "`")])) ∧
    (∀ e, r = Except.error e →
      loadModelStep V true r =
        (none, [Event.fsRead MODEL_PATH, Event.fsRead MODEL_PATH,
          Event.error ("Failed to load model: " ++ e)])) ∧
    loadModelStep V false r =
      (none, [Event.fsRead MODEL_PATH,
        Event.warning ("Model file not found at `" ++ MODEL_PATH ++
          "`.\nIf your model is large, remove it from repo and load from Drive or use Git LFS.")]) := by
  refine ⟨?_, ?_, rfl⟩
  · intro m hm
    simp only [loadModelStep, hm, if_pos]
  · intro e he
    simp only [loadModelStep, he, if_pos]

/-- C5 witness: both load outcomes at concrete values. -/
theorem model_loading_witness :
    (loadModelStep Int true (Except.ok ⟨fun _ => Except.ok []⟩)).1.isSome ∧
    (loadModelStep Int true (Except.error "bad pickle")).1 = none := by
  constructor
  · rw [(model_loading Int (Except.ok ⟨fun _ => Except.ok []⟩)).1
      ⟨fun _ => Except.ok []⟩ rfl]
    rfl
  · rw [(model_loading Int (Except.error "bad pickle")).2.1 "bad pickle" rfl]

/-- C7: the banner image is displayed (resized to 1000 x 400) iff the file
at `images/banner.jpg` exists; otherwise an informational message is shown
instead. -/
theorem banner_rendering (V : Type) (b : Bool) :
    (Event.image 1000 400 ∈ bannerStep V b ↔ b = true) ∧
    (∀ w h, Event.image w h ∈ bannerStep V b → w = 1000 ∧ h = 400) ∧
    (b = false →
      Event.info "Banner image not found at images/banner.jpg. (Optional)" ∈
          bannerStep V b ∧
        ∀ w h, Event.image w h ∉ bannerStep V b) := by
  cases b <;> simp [bannerStep]

/-- C7 witness: both branches at concrete values. -/
theorem banner_rendering_witness :
    Event.image 1000 400 ∈ bannerStep Int true ∧
    Event.info "Banner image not found at images/banner.jpg. (Optional)" ∈
      bannerStep Int false := by
  constructor
  · exact (banner_rendering Int true).1.mpr rfl
  · exact ((banner_rendering Int false).2.2 rfl).1

/-- C8: when the model is `None`, pressing the manual Predict button shows
the `No model loaded` error and the batch page (with a successfully parsed
upload) shows `No model loaded. Cannot run predictions.`; in neither
handler is `model.predict` ever invoked. -/
theorem no_model_guard (V : Type) (pf : String → Except String V)
    (s : String) (inp : BatchInput V) (df : DataFrame V)
    (h : inp.uploaded = some (Except.ok df)) :
    manualPredictHandler V pf none s =
      [Event.error "No model loaded. Ensure `model[1].pkl` is present or load model at runtime."] ∧
    (∀ rows, Event.predictCall rows ∉ manualPredictHandler V pf none s) ∧
    Event.error "No model loaded. Cannot run predictions." ∈
      batchHandler V none inp ∧
    (∀ rows, Event.predictCall rows ∉ batchHandler V none inp) := by
  refine ⟨rfl, ?_, ?_, ?_⟩
  · intro rows hmem
    simp [manualPredictHandler] at hmem
  · simp [batchHandler, h]
  · intro rows hmem
    simp [batchHandler, h] at hmem

/-- C8 witness: concrete model-less run of both pages. -/
theorem no_model_guard_witness :
    Event.error "No model loaded. Cannot run predictions." ∈
      batchHandler Int none
        ⟨some (Except.ok ⟨["a"], [[1]]⟩), true⟩ ∧
    (∀ rows, Event.predictCall rows ∉
      manualPredictHandler Int (fun _ => Except.ok 0) none "1,2") := by
  have h := no_model_guard Int (fun _ => Except.ok 0) "1,2"
    ⟨some (Except.ok ⟨["a"], [[1]]⟩), true⟩ ⟨["a"], [[1]]⟩ rfl
  exact ⟨h.2.2.1, h.2.1⟩

/-! Auxiliary lemmas about column assignment. -/

lemma setCol_ok_length {V : Type} (df : DataFrame V) (name : String)
    (vals : List V) (out : DataFrame V)
    (h : df.setCol name vals = Except.ok out) :
    vals.length = df.rows.length ∧ out.rows.length = df.rows.length := by
  unfold DataFrame.setCol at h
  by_cases hl : vals.length = df.rows.length
  · rw [if_neg (by simp [hl])] at h
    refine ⟨hl, ?_⟩
    split at h <;>
      (cases h; simp [List.length_zip, hl])
  · rw [if_pos hl] at h
    cases h

lemma setCol_fresh {V : Type} (df : DataFrame V) (name : String)
    (vals : List V) (out : DataFrame V)
    (hname : name ∉ df.cols) (h : df.setCol name vals = Except.ok out) :
    out.cols = df.cols ++ [name] ∧
    out.rows = (df.rows.zip vals).map (fun rv => rv.1 ++ [rv.2]) := by
  unfold DataFrame.setCol at h
  split at h
  · cases h
  · cases h
    exact ⟨rfl, rfl⟩

/-- C4: on the batch page, a `read_csv` exception yields exactly the
`Failed to read CSV` error, and a `model.predict` exception yields the
input preview followed by the `Prediction failed` error; in both failure
cases no success banner, no results table beyond the input preview, and no
download button appear, and the handler still returns a trace (nothing
propagates). -/
theorem batch_try_except (V : Type) (m : Model V) (inp : BatchInput V) :
    (∀ e, inp.uploaded = some (Except.error e) →
      batchHandler V (some m) inp =
        [Event.error ("Failed to read CSV: " ++ e)] ∧
      (∀ lab t i enc fn mm,
        Event.download lab t i enc fn mm ∉ batchHandler V (some m) inp) ∧
      (∀ cols rows, Event.dataframe cols rows ∉ batchHandler V (some m) inp)) ∧
    (∀ df e, inp.uploaded = some (Except.ok df) → inp.runClicked = true →
      m.predict df.rows = Except.error e →
      batchHandler V (some m) inp =
        [Event.write "Preview of uploaded data (first 5 rows):",
         Event.dataframe df.cols df.head,
         Event.predictCall df.rows,
         Event.error ("Prediction failed: " ++ e ++
           "\nMake sure the CSV columns match the features and ordering used for training.")] ∧
      (∀ lab t i enc fn mm,
        Event.download lab t i enc fn mm ∉ batchHandler V (some m) inp) ∧
      Event.success "Predictions complete." ∉ batchHandler V (some m) inp) := by
  constructor
  · intro e he
    have htr : batchHandler V (some m) inp =
        [Event.error ("Failed to read CSV: " ++ e)] := by
      simp only [batchHandler, he]
    refine ⟨htr, ?_, ?_⟩
    · intro lab t i enc fn mm
      rw [htr]; simp
    · intro cols rows
      rw [htr]; simp
  · intro df e hdf hclick hpred
    have htr : batchHandler V (some m) inp =
        [Event.write "Preview of uploaded data (first 5 rows):",
         Event.dataframe df.cols df.head,
         Event.predictCall df.rows,
         Event.error ("Prediction failed: " ++ e ++
           "\nMake sure the CSV columns match the features and ordering used for training.")] := by
      simp only [batchHandler, hdf, hclick, hpred, if_true]
      rfl
    refine ⟨htr, ?_, ?_⟩
    · intro lab t i enc fn mm
      rw [htr]; simp
    · rw [htr]; simp

/-- C4 witness: concrete read failure and predict failure. -/
theorem batch_try_except_witness :
    batchHandler Int (some ⟨fun _ => Except.error "shape mismatch"⟩)
        ⟨some (Except.error "bad csv"), true⟩ =
      [Event.error ("Failed to read CSV: " ++ "bad csv")] ∧
    Event.success "Predictions complete." ∉
      batchHandler Int (some ⟨fun _ => Except.error "shape mismatch"⟩)
        ⟨some (Except.ok ⟨["a"], [[1]]⟩), true⟩ := by
  constructor
  · exact ((batch_try_except Int ⟨fun _ => Except.error "shape mismatch"⟩
      ⟨some (Except.error "bad csv"), true⟩).1 "bad csv" rfl).1
  · exact ((batch_try_except Int ⟨fun _ => Except.error "shape mismatch"⟩
      ⟨some (Except.ok ⟨["a"], [[1]]⟩), true⟩).2 ⟨["a"], [[1]]⟩
      "shape mismatch" rfl rfl rfl).2.2

/-- C10: on a successful batch prediction the download button receives the
full result table (as many rows as the upload, not just the previewed
ones), serialized with `index = False` and encoded as UTF-8, while the
on-screen previews of the input and of the results each show only the
first 5 rows. -/
theorem batch_download_full (V : Type) (m : Model V) (inp : BatchInput V)
    (df : DataFrame V) (preds : List V) (out : DataFrame V)
    (h1 : inp.uploaded = some (Except.ok df)) (h2 : inp.runClicked = true)
    (h3 : m.predict df.rows = Except.ok preds)
    (h4 : df.copy.setCol "prediction" preds = Except.ok out) :
    batchHandler V (some m) inp =
      [Event.write "Preview of uploaded data (first 5 rows):",
       Event.dataframe df.cols (df.rows.take 5),
       Event.predictCall df.rows,
       Event.success "Predictions complete.",
       Event.dataframe out.cols (out.rows.take 5),
       Event.download "Download results CSV" out false "utf-8"
         "predictions.csv" "text/csv"] ∧
    out.rows.length = df.rows.length := by
  constructor
  · simp only [batchHandler, h1, h2, h3, h4, if_true]
    rfl
  · exact (setCol_ok_length df.copy "prediction" preds out h4).2

/-- C10 witness: six uploaded rows, six downloaded rows. -/
theorem batch_download_full_witness :
    ([[1, 0], [2, 0], [3, 0], [4, 0], [5, 0], [6, 0]] : List (List Int)).length =
      ([[1], [2], [3], [4], [5], [6]] : List (List Int)).length :=
  (batch_download_full Int ⟨fun rs => Except.ok (rs.map (fun _ => 0))⟩
    ⟨some (Except.ok ⟨["a"], [[1], [2], [3], [4], [5], [6]]⟩), true⟩
    ⟨["a"], [[1], [2], [3], [4], [5], [6]]⟩ [0, 0, 0, 0, 0, 0]
    ⟨["a", "prediction"], [[1, 0], [2, 0], [3, 0], [4, 0], [5, 0], [6, 0]]⟩
    rfl rfl rfl (by rfl)).2

/-- C2 counterexample: when the uploaded CSV already has a column named
`prediction`, the assignment `out["prediction"] = preds` overwrites it in
place instead of appending a new column: for the upload with header
`prediction` and single cell `5`, and a model predicting `9`, the
downloaded table is `⟨[prediction], [[9]]⟩` — its header is not the
original header with a new `prediction` column appended, and the original
cell value `5` is nowhere in the result. -/
theorem batch_prediction_overwrite_counterexample :
    batchHandler Int (some ⟨fun _ => Except.ok [9]⟩)
        ⟨some (Except.ok ⟨["prediction"], [[5]]⟩), true⟩ =
      [Event.write "Preview of uploaded data (first 5 rows):",
       Event.dataframe ["prediction"] [[5]],
       Event.predictCall [[5]],
       Event.success "Predictions complete.",
       Event.dataframe ["prediction"] [[9]],
       Event.download "Download results CSV"
         (⟨["prediction"], [[9]]⟩ : DataFrame Int) false "utf-8"
         "predictions.csv" "text/csv"] ∧
    (⟨["prediction"], [[9]]⟩ : DataFrame Int).cols ≠
      (⟨["prediction"], [[5]]⟩ : DataFrame Int).cols ++ ["prediction"] ∧
    (5 : Int) ∉ ((⟨["prediction"], [[9]]⟩ : DataFrame Int).rows).flatten := by
  refine ⟨by decide, by decide, by decide⟩

/-- C2 (amended): when prediction succeeds and the uploaded table has no
column already named `prediction`, the downloadable result is the uploaded
table with exactly one new `prediction` column appended on the right:
the column names are the original ones plus `prediction`, every row is the
original row with its prediction appended, there is one prediction per
uploaded row, and the prediction column is added to a copy so the uploaded
dataframe itself is left unchanged. -/
theorem batch_prediction_column_amended (V : Type) (m : Model V)
    (inp : BatchInput V) (df : DataFrame V) (preds : List V)
    (out : DataFrame V)
    (h1 : inp.uploaded = some (Except.ok df)) (h2 : inp.runClicked = true)
    (h3 : m.predict df.rows = Except.ok preds)
    (h4 : df.copy.setCol "prediction" preds = Except.ok out)
    (h5 : "prediction" ∉ df.cols) :
    Event.download "Download results CSV" out false "utf-8"
        "predictions.csv" "text/csv" ∈ batchHandler V (some m) inp ∧
    out.cols = df.cols ++ ["prediction"] ∧
    out.rows = (df.rows.zip preds).map (fun rv => rv.1 ++ [rv.2]) ∧
    preds.length = df.rows.length ∧
    DataFrame.copy df = df := by
  have hfresh := setCol_fresh df.copy "prediction" preds out h5 h4
  refine ⟨?_, hfresh.1, hfresh.2, (setCol_ok_length df.copy "prediction" preds out h4).1, rfl⟩
  simp only [batchHandler, h1, h2, h3, h4, if_true]
  simp

/-- C2 witness for the amended claim: a two-row upload with header `a`. -/
theorem batch_prediction_column_amended_witness :
    (⟨["a", "prediction"], [[1, 8], [2, 9]]⟩ : DataFrame Int).cols =
      ["a"] ++ ["prediction"] :=
  (batch_prediction_column_amended Int ⟨fun _ => Except.ok [8, 9]⟩
    ⟨some (Except.ok ⟨["a"], [[1], [2]]⟩), true⟩
    ⟨["a"], [[1], [2]]⟩ [8, 9] ⟨["a", "prediction"], [[1, 8], [2, 9]]⟩
    rfl rfl rfl (by rfl) (by decide)).2.1

/-! Absence of filesystem writes. -/

lemma fsWrite_not_mem_manual (V : Type) (pf : String → Except String V)
    (mo : Option (Model V)) (s : String) (p : String) :
    Event.fsWrite p ∉ manualPredictHandler V pf mo s := by
  intro h
  unfold manualPredictHandler at h
  split at h
  · simp at h
  · split at h
    · simp at h
    · rcases List.mem_cons.mp h with h1 | h1
      · simp at h1
      · split at h1
        · simp at h1
        · split at h1 <;> simp at h1

lemma fsWrite_not_mem_batch (V : Type) (mo : Option (Model V))
    (inp : BatchInput V) (p : String) :
    Event.fsWrite p ∉ batchHandler V mo inp := by
  intro h
  unfold batchHandler at h
  split at h
  · simp at h
  · simp at h
  · rw [List.mem_append] at h
    rcases h with h | h
    · simp at h
    · split at h
      · simp at h
      · split at h
        · rcases List.mem_cons.mp h with h1 | h1
          · simp at h1
          · split at h1
            · simp at h1
            · split at h1 <;> simp at h1
        · simp at h

lemma fsWrite_not_mem_load (V : Type) (b : Bool)
    (r : Except String (Model V)) (p : String) :
    Event.fsWrite p ∉ (loadModelStep V b r).2 := by
  intro h
  unfold loadModelStep at h
  split at h
  · split at h <;> simp at h
  · simp at h

lemma fsWrite_not_mem_dispatch (V : Type) (mo : Option (Model V))
    (inp : AppInput V) (p : String) :
    Event.fsWrite p ∉ pageDispatch V mo inp := by
  intro h
  unfold pageDispatch at h
  split at h
  · simp at h
  · rw [List.mem_append] at h
    rcases h with h | h
    · simp at h
    · split at h
      · exact fsWrite_not_mem_manual V inp.pf mo inp.manualInput p h
      · simp at h
  · rw [List.mem_append] at h
    rcases h with h | h
    · simp at h
    · exact fsWrite_not_mem_batch V mo inp.batch p h
  · simp at h

/-- C6: no execution of the script ever writes to the filesystem: across
every input (filesystem state, load outcome, page, widget states) the
event trace of a full run contains no `fsWrite`; the only filesystem
events are the reads of the banner image and of the model file, and the
predictions CSV for download is produced in memory only. -/
theorem no_filesystem_writes (V : Type) (inp : AppInput V) (p : String) :
    Event.fsWrite p ∉ runApp V inp := by
  intro h
  unfold runApp at h
  rw [List.mem_append] at h
  rcases h with h | h
  · rw [List.mem_append] at h
    rcases h with h | h
    · rw [List.mem_append] at h
      rcases h with h | h
      · simp [headerEvents] at h
      · unfold bannerStep at h
        rcases List.mem_cons.mp h with h1 | h1
        · simp at h1
        · split at h1 <;> simp at h1
    · simp [narrativeEvents] at h
  · rw [List.mem_append] at h
    rcases h with h | h
    · exact fsWrite_not_mem_load V inp.modelFileExists inp.loadResult p h
    · exact fsWrite_not_mem_dispatch V
        (loadModelStep V inp.modelFileExists inp.loadResult).1 inp p h

end SongAnalysis
